import Mathlib

/-!
Verification of the Socket Mode push-event subsystem of the `slacko` client
library (`src/api/socket_mode.rs`), shallowly embedded in Lean 4.

The embedding covers:
* the wire JSON value model (`serde_json::Value`);
* the envelope and typed-payload decoders (`SocketModeEnvelope`,
  `EventsApiPayload`, `InteractivePayload`, `SlashCommandPayload`,
  `parse_envelope`);
* the per-connection receive loop of `run_connection` (frames in, acks and
  handler invocations out), modelled as a fold over the list of read results;
* the exponential-backoff reconnect loop of `start_with_reconnect`.

Texts arriving on the socket are represented by the result of JSON syntax
parsing (`Option Json`: `none` = syntactically malformed text), since
`serde_json::from_str` is syntax parsing followed by structure decoding.
-/

/-- JSON values, mirroring `serde_json::Value`.  Numbers are modelled as
integers (`Int`); no claim under verification touches non-integral numbers. -/
inductive Json where
  | null
  | bool (b : Bool)
  | num (n : Int)
  | str (s : String)
  | arr (elems : List Json)
  | obj (fields : List (String × Json))

/-- Field lookup on a JSON object's field list (first occurrence). -/
def lookupField (fields : List (String × Json)) (key : String) : Option Json :=
  match fields with
  | [] => none
  | (k, v) :: rest => if k = key then some v else lookupField rest key

/-- `Value::get(key)` on an arbitrary JSON value: object field lookup,
`none` on non-objects (used by the `disconnect` reason extraction). -/
def Json.getField : Json → String → Option Json
  | .obj fields, key => lookupField fields key
  | _, _ => none

/-! ### serde field-decoding helpers

Each helper takes the result of looking a field up in the containing object
(`none` = field absent) and returns `none` exactly when serde's derived
`Deserialize` would fail on that field. -/

/-- A required `String` field: must be present and a JSON string. -/
def fieldReqString : Option Json → Option String
  | some (.str s) => some s
  | _ => none

/-- A required `bool` field carrying `#[serde(default)]`: absent gives
`false`; present must be a JSON bool. -/
def fieldBoolDefault : Option Json → Option Bool
  | none => some false
  | some (.bool b) => some b
  | some _ => none

/-- An `Option<String>` field (with or without `#[serde(default)]`, the
behaviour is the same): absent or `null` gives `none`; a string gives
`some`; any other value fails. -/
def fieldOptString : Option Json → Option (Option String)
  | none => some none
  | some .null => some none
  | some (.str s) => some (some s)
  | some _ => none

/-- An `Option<Value>` field: absent or `null` gives `none`; anything else
is kept raw. -/
def fieldOptValue : Option Json → Option (Option Json)
  | none => some none
  | some .null => some none
  | some v => some (some v)

/-- An `Option<u32>` field: absent or `null` gives `none`; an integer in
`u32` range gives `some`; anything else fails. -/
def fieldOptU32 : Option Json → Option (Option Nat)
  | none => some none
  | some .null => some none
  | some (.num n) => if 0 ≤ n ∧ n < 4294967296 then some (some n.toNat) else none
  | some _ => none

/-- An `Option<i64>` field: absent or `null` gives `none`; an integer in
`i64` range gives `some`; anything else fails. -/
def fieldOptI64 : Option Json → Option (Option Int)
  | none => some none
  | some .null => some none
  | some (.num n) =>
      if -9223372036854775808 ≤ n ∧ n < 9223372036854775808 then some (some n) else none
  | some _ => none

/-- A `Vec<Value>` field carrying `#[serde(default)]`: absent gives `[]`;
present must be a JSON array. -/
def fieldVecDefault : Option Json → Option (List Json)
  | none => some []
  | some (.arr xs) => some xs
  | some _ => none

/-- An `Option<T>` field (with `#[serde(default)]`) for a nested struct
decoded by `dec`: absent or `null` gives `none`; otherwise the nested decode
must succeed. -/
def fieldOptNested (dec : Json → Option α) : Option Json → Option (Option α)
  | none => some none
  | some .null => some none
  | some v => (dec v).map some

/-- The fields of an object not consumed by the named struct fields; this is
what a `#[serde(flatten)] extra: Value` field captures. -/
def flattenRest (fields : List (String × Json)) (known : List String) : Json :=
  .obj (fields.filter (fun kv => ¬ known.contains kv.1))

/-! ### Wire-level envelope (`SocketModeEnvelope`) -/

/-- The untyped Socket Mode envelope, as deserialized from a text frame. -/
structure SocketModeEnvelope where
  envelope_id : String
  /-- The `type` string discriminator (serde rename of `envelope_type`). -/
  envelope_type : String
  accepts_response_payload : Bool
  payload : Option Json
  retry_attempt : Option Nat
  retry_reason : Option String

/-- Derived `Deserialize for SocketModeEnvelope` applied to a parsed JSON
value: requires an object with string `envelope_id` and `type`;
`accepts_response_payload` defaults to `false`; the remaining fields are
optional. -/
def decodeEnvelopeJson : Json → Option SocketModeEnvelope
  | .obj fields => do
      let envelope_id ← fieldReqString (lookupField fields "envelope_id")
      let envelope_type ← fieldReqString (lookupField fields "type")
      let accepts ← fieldBoolDefault (lookupField fields "accepts_response_payload")
      let payload ← fieldOptValue (lookupField fields "payload")
      let retry_attempt ← fieldOptU32 (lookupField fields "retry_attempt")
      let retry_reason ← fieldOptString (lookupField fields "retry_reason")
      pure ⟨envelope_id, envelope_type, accepts, payload, retry_attempt, retry_reason⟩
  | _ => none

/-- `serde_json::from_str::<SocketModeEnvelope>` on a text frame's contents,
with the text represented by its JSON syntax-parse result (`none` =
malformed JSON). -/
def decodeEnvelope : Option Json → Option SocketModeEnvelope
  | none => none
  | some j => decodeEnvelopeJson j

/-! ### Typed payloads -/

/-- `EventsApiPayload`: every field is optional (`Option` or
`#[serde(default)]`); unknown fields are ignored (no `flatten`). -/
structure EventsApiPayload where
  token : Option String
  team_id : Option String
  api_app_id : Option String
  event : Option Json
  payload_type : Option String
  event_id : Option String
  event_time : Option Int
  authorizations : List Json

/-- Derived `Deserialize for EventsApiPayload`. -/
def decodeEventsApiPayload : Json → Option EventsApiPayload
  | .obj fields => do
      let token ← fieldOptString (lookupField fields "token")
      let team_id ← fieldOptString (lookupField fields "team_id")
      let api_app_id ← fieldOptString (lookupField fields "api_app_id")
      let event ← fieldOptValue (lookupField fields "event")
      let payload_type ← fieldOptString (lookupField fields "type")
      let event_id ← fieldOptString (lookupField fields "event_id")
      let event_time ← fieldOptI64 (lookupField fields "event_time")
      let authorizations ← fieldVecDefault (lookupField fields "authorizations")
      pure ⟨token, team_id, api_app_id, event, payload_type, event_id, event_time,
            authorizations⟩
  | _ => none

/-- `InteractiveUser`: requires a string `id`. -/
structure InteractiveUser where
  id : String
  username : Option String
  name : Option String
  team_id : Option String

/-- Derived `Deserialize for InteractiveUser`. -/
def decodeInteractiveUser : Json → Option InteractiveUser
  | .obj fields => do
      let id ← fieldReqString (lookupField fields "id")
      let username ← fieldOptString (lookupField fields "username")
      let name ← fieldOptString (lookupField fields "name")
      let team_id ← fieldOptString (lookupField fields "team_id")
      pure ⟨id, username, name, team_id⟩
  | _ => none

/-- `InteractiveChannel`: requires a string `id`. -/
structure InteractiveChannel where
  id : String
  name : Option String

/-- Derived `Deserialize for InteractiveChannel`. -/
def decodeInteractiveChannel : Json → Option InteractiveChannel
  | .obj fields => do
      let id ← fieldReqString (lookupField fields "id")
      let name ← fieldOptString (lookupField fields "name")
      pure ⟨id, name⟩
  | _ => none

/-- The named fields of `InteractivePayload`; everything else lands in the
`#[serde(flatten)] extra` field. -/
def interactiveKnownKeys : List String :=
  ["type", "user", "channel", "trigger_id", "response_url", "actions", "view", "message"]

/-- `InteractivePayload`: requires the `type` string (serde rename of
`interaction_type`); all other named fields are optional; `extra` flattens
the rest. -/
structure InteractivePayload where
  interaction_type : String
  user : Option InteractiveUser
  channel : Option InteractiveChannel
  trigger_id : Option String
  response_url : Option String
  actions : List Json
  view : Option Json
  message : Option Json
  extra : Json

/-- Derived `Deserialize for InteractivePayload`. -/
def decodeInteractivePayload : Json → Option InteractivePayload
  | .obj fields => do
      let interaction_type ← fieldReqString (lookupField fields "type")
      let user ← fieldOptNested decodeInteractiveUser (lookupField fields "user")
      let channel ← fieldOptNested decodeInteractiveChannel (lookupField fields "channel")
      let trigger_id ← fieldOptString (lookupField fields "trigger_id")
      let response_url ← fieldOptString (lookupField fields "response_url")
      let actions ← fieldVecDefault (lookupField fields "actions")
      let view ← fieldOptValue (lookupField fields "view")
      let message ← fieldOptValue (lookupField fields "message")
      pure ⟨interaction_type, user, channel, trigger_id, response_url, actions, view,
            message, flattenRest fields interactiveKnownKeys⟩
  | _ => none

/-- The named fields of `SlashCommandPayload`. -/
def slashCommandKnownKeys : List String :=
  ["command", "text", "response_url", "trigger_id", "user_id", "user_name",
   "channel_id", "channel_name", "team_id", "team_domain"]

/-- `SlashCommandPayload`: requires string `command`, `response_url`,
`user_id` and `channel_id`; the rest is optional; `extra` flattens the
remainder. -/
structure SlashCommandPayload where
  command : String
  text : Option String
  response_url : String
  trigger_id : Option String
  user_id : String
  user_name : Option String
  channel_id : String
  channel_name : Option String
  team_id : Option String
  team_domain : Option String
  extra : Json

/-- Derived `Deserialize for SlashCommandPayload`. -/
def decodeSlashCommandPayload : Json → Option SlashCommandPayload
  | .obj fields => do
      let command ← fieldReqString (lookupField fields "command")
      let text ← fieldOptString (lookupField fields "text")
      let response_url ← fieldReqString (lookupField fields "response_url")
      let trigger_id ← fieldOptString (lookupField fields "trigger_id")
      let user_id ← fieldReqString (lookupField fields "user_id")
      let user_name ← fieldOptString (lookupField fields "user_name")
      let channel_id ← fieldReqString (lookupField fields "channel_id")
      let channel_name ← fieldOptString (lookupField fields "channel_name")
      let team_id ← fieldOptString (lookupField fields "team_id")
      let team_domain ← fieldOptString (lookupField fields "team_domain")
      pure ⟨command, text, response_url, trigger_id, user_id, user_name, channel_id,
            channel_name, team_id, team_domain, flattenRest fields slashCommandKnownKeys⟩
  | _ => none

/-! ### Event typing (`SocketModeEventType`, `SocketModePayload`,
`parse_envelope`) -/

/-- The closed enum of Socket Mode event types. -/
inductive SocketModeEventType where
  | eventsApi
  | interactive
  | slashCommands
  | hello
  | disconnect
  | unknown (s : String)
deriving DecidableEq

/-- `impl From<&str> for SocketModeEventType`: exact string match on the five
recognized discriminators, everything else maps to `unknown`. -/
def SocketModeEventType.fromStr (s : String) : SocketModeEventType :=
  match s with
  | "events_api" => .eventsApi
  | "interactive" => .interactive
  | "slash_commands" => .slashCommands
  | "hello" => .hello
  | "disconnect" => .disconnect
  | other => .unknown other

/-- `SocketModePayload`: the tagged union of decoded payload shapes, with
`raw` as the universal fallback. -/
inductive SocketModePayload where
  | eventsApi (p : EventsApiPayload)
  | interactive (p : InteractivePayload)
  | slashCommand (p : SlashCommandPayload)
  | hello
  | disconnect (reason : String)
  | raw (v : Json)

/-- The typed Socket Mode event handed to the user handler. -/
structure SocketModeEvent where
  envelope_id : String
  envelope_type : SocketModeEventType
  accepts_response_payload : Bool
  payload : SocketModePayload

/-- `parse_envelope`: classify the type string, then best-effort decode the
payload, downgrading to `raw` on nested decode failure (or `raw null` when
the payload is absent for a structured type). -/
def parse_envelope (envelope : SocketModeEnvelope) : SocketModeEvent :=
  let envelope_type := SocketModeEventType.fromStr envelope.envelope_type
  let payload :=
    match envelope_type with
    | .eventsApi =>
        match envelope.payload with
        | some p =>
            match decodeEventsApiPayload p with
            | some events => SocketModePayload.eventsApi events
            | none => SocketModePayload.raw p
        | none => SocketModePayload.raw Json.null
    | .interactive =>
        match envelope.payload with
        | some p =>
            match decodeInteractivePayload p with
            | some interactive => SocketModePayload.interactive interactive
            | none => SocketModePayload.raw p
        | none => SocketModePayload.raw Json.null
    | .slashCommands =>
        match envelope.payload with
        | some p =>
            match decodeSlashCommandPayload p with
            | some cmd => SocketModePayload.slashCommand cmd
            | none => SocketModePayload.raw p
        | none => SocketModePayload.raw Json.null
    | .hello => SocketModePayload.hello
    | .disconnect =>
        let reason :=
          match envelope.payload with
          | some p =>
              match p.getField "reason" with
              | some (.str r) => r
              | _ => "unknown"
          | none => "unknown"
        SocketModePayload.disconnect reason
    | .unknown _ => SocketModePayload.raw (envelope.payload.getD Json.null)
  { envelope_id := envelope.envelope_id
    envelope_type := envelope_type
    accepts_response_payload := envelope.accepts_response_payload
    payload := payload }

/-! ### Acknowledgments and the receive loop of `run_connection`

The loop body (lines 394-448 of `socket_mode.rs`) is modelled as structural
recursion over the list of results produced by `read.next()`.  Each element
is `Except.error e` (a transport read error) or a WebSocket message.  The
bounded mpsc ack channel is abstracted by a predicate `enqueueOk` telling,
per enqueue attempt (indexed by the number of acks already enqueued),
whether the channel still has a live receiver (`ack_tx.send(..).is_err()`
is the negation).  The model starts after a successful handshake. -/

/-- The outbound acknowledgment (`SocketModeAck`).  Its wire form includes a
`payload` field exactly when `payload` is `some` (`skip_serializing_if =
Option::is_none`). -/
structure SocketModeAck where
  envelope_id : String
  payload : Option Json

/-- A received WebSocket message, as matched by the receive loop.  `text`
carries its contents' JSON syntax-parse result (`none` = malformed JSON);
`other` covers the binary/pong/frame cases of the catch-all arm. -/
inductive WsMessage where
  | text (t : Option Json)
  | close
  | ping (data : List Nat)
  | other

/-- What one iteration of the receive loop does: acks enqueued this step (0
or 1), whether the handler was invoked, whether (and how) the loop exits,
and whether the exit was caused by an ack-enqueue failure. -/
structure StepResult where
  newAcks : List SocketModeAck
  handlerCalled : Bool
  exit : Option (Except String Unit)
  ackFailed : Bool

/-- One iteration of the receive loop on one read result (`enqOk` = whether
an ack enqueue this step would succeed).  Matches the `match msg` arms of
`run_connection`:
* well-formed text, type ≠ Hello: invoke the handler, build the ack; on
  enqueue failure `break` (loop then returns `Ok(())`);
* well-formed text, type = Hello: invoke the handler, no ack;
* undecodable text: log and continue;
* Close frame: `break` (loop returns `Ok(())`);
* Ping / other frames: continue;
* read error: abort the writer and return the websocket error. -/
def processMsg (handler : SocketModeEvent → Option Json) (enqOk : Bool)
    (msg : Except String WsMessage) : StepResult :=
  match msg with
  | .ok (.text t) =>
      match decodeEnvelope t with
      | some envelope =>
          let event := parse_envelope envelope
          if event.envelope_type ≠ SocketModeEventType.hello then
            let response := handler event
            let ack : SocketModeAck := ⟨envelope.envelope_id, response⟩
            if enqOk then ⟨[ack], true, none, false⟩
            else ⟨[], true, some (.ok ()), true⟩
          else ⟨[], true, none, false⟩
      | none => ⟨[], false, none, false⟩
  | .ok .close => ⟨[], false, some (.ok ()), false⟩
  | .ok (.ping _) => ⟨[], false, none, false⟩
  | .ok .other => ⟨[], false, none, false⟩
  | .error e => ⟨[], false, some (.error ("WebSocket error: " ++ e)), false⟩

/-- The observable outcome of one `run_connection` invocation (after a
successful handshake): its return value, the acks enqueued in order, the
number of handler invocations, the number of frames consumed from the read
half, whether the writer task was aborted, and whether an ack enqueue ever
failed. -/
structure RunResult where
  result : Except String Unit
  acks : List SocketModeAck
  handlerCalls : Nat
  framesProcessed : Nat
  writerAborted : Bool
  ackEnqueueFailed : Bool

/-- The receive loop with its accumulated state (acks enqueued so far,
handler invocations so far, frames consumed so far).  When the read stream
is exhausted or the loop breaks, the writer task is aborted and `Ok(())` is
returned; a read error aborts the writer and returns the error. -/
def runLoop (handler : SocketModeEvent → Option Json) (enqueueOk : Nat → Bool)
    (msgs : List (Except String WsMessage)) (acks : List SocketModeAck)
    (calls iters : Nat) : RunResult :=
  match msgs with
  | [] => ⟨.ok (), acks, calls, iters, true, false⟩
  | m :: rest =>
      let s := processMsg handler (enqueueOk acks.length) m
      let acks' := acks ++ s.newAcks
      let calls' := calls + (if s.handlerCalled then 1 else 0)
      match s.exit with
      | some r => ⟨r, acks', calls', iters + 1, true, s.ackFailed⟩
      | none => runLoop handler enqueueOk rest acks' calls' (iters + 1)

/-- `run_connection` after a successful handshake: run the receive loop on
the connection's read results with empty initial state. -/
def runConnection (handler : SocketModeEvent → Option Json) (enqueueOk : Nat → Bool)
    (msgs : List (Except String WsMessage)) : RunResult :=
  runLoop handler enqueueOk msgs [] 0 0

/-! ### The reconnect supervisor (`start_with_reconnect`)

Each loop iteration first calls `open_connection`; on failure it sleeps
`backoff` and doubles it (capped at 60 s).  On success it resets `backoff`
to 1 s and runs the connection; `Ok(())` breaks the loop, `Err` sleeps
`backoff` and doubles it (capped).  One iteration is abstracted as an
`Attempt`; the model returns the sequence of sleep delays (in seconds). -/

/-- One supervisor iteration: the bootstrap (`open_connection`) fails, or it
succeeds and the connection run ends with the given result. -/
inductive Attempt where
  | bootstrapFail
  | bootstrapOk (run : Except String Unit)

/-- The supervisor loop, threading the current backoff (seconds); returns
the successive sleep delays.  `backoff * 2` is capped by
`min (backoff * 2) 60` (`max_backoff = 60`). -/
def superLoop : List Attempt → Nat → List Nat
  | [], _ => []
  | .bootstrapFail :: rest, backoff =>
      backoff :: superLoop rest (min (backoff * 2) 60)
  | .bootstrapOk run :: rest, _ =>
      match run with
      | .ok _ => []
      | .error _ => 1 :: superLoop rest (min (1 * 2) 60)

/-- `start_with_reconnect`'s delays: the supervisor loop started with
`backoff = 1` second. -/
def supervisorDelays (attempts : List Attempt) : List Nat :=
  superLoop attempts 1

/-! ### Derived definitions and concrete sample inputs -/

/-- `Serialize for SocketModeAck`: the JSON wire form of an ack - the
`payload` field is emitted exactly when the option is `some`
(`#[serde(skip_serializing_if = "Option::is_none")]`). -/
def serializeAck (ack : SocketModeAck) : Json :=
  match ack.payload with
  | some p => Json.obj [("envelope_id", Json.str ack.envelope_id), ("payload", p)]
  | none => Json.obj [("envelope_id", Json.str ack.envelope_id)]

/-- A sequence of Text frames presented to the receive loop, each given by
its contents' JSON syntax-parse result. -/
def textFrames (ts : List (Option Json)) : List (Except String WsMessage) :=
  ts.map (fun t => Except.ok (WsMessage.text t))

/-- The acks one Text frame contributes when the channel is open: one for a
decodable non-Hello envelope, none otherwise. -/
def acksOfText (handler : SocketModeEvent → Option Json) (t : Option Json) :
    List SocketModeAck :=
  match decodeEnvelope t with
  | some env =>
      if (parse_envelope env).envelope_type ≠ SocketModeEventType.hello then
        [⟨env.envelope_id, handler (parse_envelope env)⟩]
      else []
  | none => []

/-- A handler that never returns a response payload. -/
def handlerNone : SocketModeEvent → Option Json := fun _ => none

/-- A handler that always returns the response payload `"resp"`. -/
def handlerResp : SocketModeEvent → Option Json := fun _ => some (Json.str "resp")

/-- Wire JSON of an `events_api` envelope `E1` with no payload. -/
def jsonC1 : Json :=
  Json.obj [("envelope_id", Json.str "E1"), ("type", Json.str "events_api")]

/-- Wire JSON of an `events_api` envelope `E2a` that explicitly does not
accept a response payload. -/
def jsonC2 : Json :=
  Json.obj [("envelope_id", Json.str "E2a"), ("type", Json.str "events_api"),
            ("accepts_response_payload", Json.bool false)]

/-- The decoded form of `jsonC2`. -/
def envC2 : SocketModeEnvelope := ⟨"E2a", "events_api", false, none, none, none⟩

/-- Wire JSON of a `disconnect` envelope `E3`. -/
def jsonC3 : Json :=
  Json.obj [("envelope_id", Json.str "E3"), ("type", Json.str "disconnect")]

/-- The decoded form of `jsonC3`. -/
def envC3 : SocketModeEnvelope := ⟨"E3", "disconnect", false, none, none, none⟩

/-- The decoded form of `jsonC1` (also used for per-event ack checks). -/
def envC4 : SocketModeEnvelope := ⟨"E1", "events_api", false, none, none, none⟩

/-- An `interactive` envelope whose payload `{}` is missing the required
`type` field, so structured decoding of the payload fails. -/
def envC6 : SocketModeEnvelope := ⟨"E6", "interactive", false, some (Json.obj []), none, none⟩

/-- An `events_api` envelope with absent payload. -/
def envC10 : SocketModeEnvelope := ⟨"E10", "events_api", true, none, none, none⟩

/-! ### Helper lemmas -/

/-- `parse_envelope` echoes the envelope's id. -/
theorem parse_envelope_id (env : SocketModeEnvelope) :
    (parse_envelope env).envelope_id = env.envelope_id := rfl

/-- `parse_envelope` classifies the type string with `fromStr`. -/
theorem parse_envelope_type (env : SocketModeEnvelope) :
    (parse_envelope env).envelope_type = SocketModeEventType.fromStr env.envelope_type := rfl

/-- `parse_envelope` echoes `accepts_response_payload`. -/
theorem parse_envelope_accepts (env : SocketModeEnvelope) :
    (parse_envelope env).accepts_response_payload = env.accepts_response_payload := rfl

/-! ### Claim theorems -/

/-- Claim C5: the classification function maps each of the five recognized
type strings to exactly the corresponding variant, and every other string
`s` to `unknown s`; it is a total function (it never returns an error). -/
theorem fromStr_classifies :
    (SocketModeEventType.fromStr "events_api" = .eventsApi ∧
     SocketModeEventType.fromStr "interactive" = .interactive ∧
     SocketModeEventType.fromStr "slash_commands" = .slashCommands ∧
     SocketModeEventType.fromStr "hello" = .hello ∧
     SocketModeEventType.fromStr "disconnect" = .disconnect) ∧
    ∀ s : String,
      s ∉ (["events_api", "interactive", "slash_commands", "hello",
            "disconnect"] : List String) →
      SocketModeEventType.fromStr s = .unknown s := by
  constructor
  · exact ⟨rfl, rfl, rfl, rfl, rfl⟩
  · intro s hs
    unfold SocketModeEventType.fromStr
    split <;> simp_all

/-- Witness for C5: the unrecognized string `"foo"` maps to `unknown "foo"`. -/
theorem fromStr_classifies_witness :
    SocketModeEventType.fromStr "foo" = .unknown "foo" :=
  fromStr_classifies.2 "foo" (by decide)

/-- Claim C7: the supervisor's backoff starts at 1, doubles per failure and
caps at 60: seven consecutive bootstrap failures sleep 1, 2, 4, 8, 16, 32,
60 (the 7th clamped); and after any successful bootstrap (whatever the
prior backoff) the next failure's sleep is 1 again. -/
theorem backoff_sequence_and_reset :
    supervisorDelays (List.replicate 7 Attempt.bootstrapFail) =
      [1, 2, 4, 8, 16, 32, 60] ∧
    ∀ (rest : List Attempt) (backoff : Nat) (e : String),
      superLoop (Attempt.bootstrapOk (Except.error e) :: rest) backoff =
        1 :: superLoop rest 2 := by
  refine ⟨by rfl, fun rest backoff e => ?_⟩
  rfl

/-- Claim C6: for a well-formed envelope of a structured type whose present
payload fails structured decoding, `parse_envelope` still produces an event
(it is total) whose payload is `raw` carrying the original payload JSON
unchanged. -/
theorem parse_envelope_raw_on_decode_failure (env : SocketModeEnvelope) (p : Json)
    (hp : env.payload = some p) :
    (SocketModeEventType.fromStr env.envelope_type = .eventsApi →
       decodeEventsApiPayload p = none →
       (parse_envelope env).payload = SocketModePayload.raw p) ∧
    (SocketModeEventType.fromStr env.envelope_type = .interactive →
       decodeInteractivePayload p = none →
       (parse_envelope env).payload = SocketModePayload.raw p) ∧
    (SocketModeEventType.fromStr env.envelope_type = .slashCommands →
       decodeSlashCommandPayload p = none →
       (parse_envelope env).payload = SocketModePayload.raw p) := by
  refine ⟨fun ht hd => ?_, fun ht hd => ?_, fun ht hd => ?_⟩ <;>
    simp [parse_envelope, ht, hp, hd]

/-- Witness for C6: an `interactive` envelope with payload `{}` (missing the
required `type` field) yields the `raw` payload `{}` unchanged. -/
theorem parse_envelope_raw_on_decode_failure_witness :
    (parse_envelope envC6).payload = SocketModePayload.raw (Json.obj []) :=
  (parse_envelope_raw_on_decode_failure envC6 (Json.obj []) rfl).2.1 rfl rfl

/-- Claim C10: for an envelope of structured type with absent payload,
`parse_envelope` (a total function) produces an event with payload
`raw null`, preserving `envelope_id` and `accepts_response_payload`. -/
theorem parse_envelope_absent_payload (env : SocketModeEnvelope)
    (hp : env.payload = none) :
    ((SocketModeEventType.fromStr env.envelope_type = .eventsApi ∨
      SocketModeEventType.fromStr env.envelope_type = .interactive ∨
      SocketModeEventType.fromStr env.envelope_type = .slashCommands) →
      (parse_envelope env).payload = SocketModePayload.raw Json.null) ∧
    (parse_envelope env).envelope_id = env.envelope_id ∧
    (parse_envelope env).accepts_response_payload = env.accepts_response_payload := by
  refine ⟨fun ht => ?_, rfl, rfl⟩
  rcases ht with ht | ht | ht <;> simp [parse_envelope, ht, hp]

/-- Witness for C10: an `events_api` envelope with absent payload parses to
`raw null` with id and accept-flag preserved. -/
theorem parse_envelope_absent_payload_witness :
    (parse_envelope envC10).payload = SocketModePayload.raw Json.null ∧
    (parse_envelope envC10).envelope_id = "E10" ∧
    (parse_envelope envC10).accepts_response_payload = true :=
  ⟨(parse_envelope_absent_payload envC10 rfl).1 (Or.inl rfl),
   (parse_envelope_absent_payload envC10 rfl).2.1,
   (parse_envelope_absent_payload envC10 rfl).2.2⟩

/-- Claim C4: for every successfully decoded envelope dispatched with an
open ack channel, a non-Hello event yields exactly one enqueued ack whose
`envelope_id` equals the event's own id (which `parse_envelope` preserves),
while a Hello event yields no ack but still one handler invocation. -/
theorem one_ack_per_non_hello_event (handler : SocketModeEvent → Option Json)
    (t : Option Json) (env : SocketModeEnvelope)
    (hdec : decodeEnvelope t = some env) :
    (parse_envelope env).envelope_id = env.envelope_id ∧
    ((parse_envelope env).envelope_type ≠ SocketModeEventType.hello →
      processMsg handler true (Except.ok (WsMessage.text t)) =
        ⟨[⟨env.envelope_id, handler (parse_envelope env)⟩], true, none, false⟩) ∧
    ((parse_envelope env).envelope_type = SocketModeEventType.hello →
      processMsg handler true (Except.ok (WsMessage.text t)) =
        ⟨[], true, none, false⟩) := by
  refine ⟨rfl, fun hne => ?_, fun heq => ?_⟩
  · simp [processMsg, hdec, hne]
  · simp [processMsg, hdec, heq]

/-- Witness for C4: a concrete `events_api` envelope gets exactly one ack,
echoing id `E1`. -/
theorem one_ack_per_non_hello_event_witness :
    processMsg handlerNone true (Except.ok (WsMessage.text (some jsonC1))) =
      ⟨[⟨"E1", none⟩], true, none, false⟩ :=
  (one_ack_per_non_hello_event handlerNone (some jsonC1) envC4 rfl).2.1 (by decide)

/-- Claim C2 counterexample: envelope `E2a` declares
`accepts_response_payload: false`, yet when the handler returns the payload
`"resp"` the enqueued acknowledgment carries that payload (so its wire form
includes a `payload` field, the acceptance flag notwithstanding). -/
theorem ack_carries_payload_despite_refusal :
    decodeEnvelope (some jsonC2) = some envC2 ∧
    envC2.accepts_response_payload = false ∧
    (processMsg handlerResp true (Except.ok (WsMessage.text (some jsonC2)))).newAcks =
      [⟨"E2a", some (Json.str "resp")⟩] ∧
    (serializeAck ⟨"E2a", some (Json.str "resp")⟩).getField "payload" =
      some (Json.str "resp") :=
  ⟨rfl, rfl, rfl, rfl⟩

/-- Claim C2 as amended: the acknowledgment's `payload` is exactly the
handler's returned payload, with `accepts_response_payload` never
consulted; the wire form carries a `payload` field exactly when the handler
returned one. -/
theorem ack_payload_is_handler_response (handler : SocketModeEvent → Option Json)
    (t : Option Json) (env : SocketModeEnvelope)
    (hdec : decodeEnvelope t = some env)
    (hne : (parse_envelope env).envelope_type ≠ SocketModeEventType.hello) :
    (processMsg handler true (Except.ok (WsMessage.text t))).newAcks =
      [⟨env.envelope_id, handler (parse_envelope env)⟩] := by
  simp [processMsg, hdec, hne]

/-- Witness for amended C2: the ack for `E2a` carries the handler's payload
even though `accepts_response_payload` is false. -/
theorem ack_payload_is_handler_response_witness :
    (processMsg handlerResp true (Except.ok (WsMessage.text (some jsonC2)))).newAcks =
      [⟨"E2a", some (Json.str "resp")⟩] :=
  ack_payload_is_handler_response handlerResp (some jsonC2) envC2 rfl (by decide)

/-- Claim C3 counterexample: a decoded `disconnect` envelope `E3` produces
one acknowledgment, not zero — the receive loop only exempts Hello. -/
theorem disconnect_is_acknowledged :
    decodeEnvelope (some jsonC3) = some envC3 ∧
    SocketModeEventType.fromStr envC3.envelope_type = .disconnect ∧
    (runConnection handlerNone (fun _ => true)
        [Except.ok (WsMessage.text (some jsonC3))]).acks = [⟨"E3", none⟩] :=
  ⟨rfl, rfl, rfl⟩

/-- Claim C3 as amended: a decoded envelope classifying to Disconnect is
acknowledged exactly like any other non-Hello event — one ack echoing its
envelope id is enqueued (when the channel is open) and the handler runs. -/
theorem disconnect_gets_one_ack (handler : SocketModeEvent → Option Json)
    (t : Option Json) (env : SocketModeEnvelope)
    (hdec : decodeEnvelope t = some env)
    (hty : SocketModeEventType.fromStr env.envelope_type = .disconnect) :
    processMsg handler true (Except.ok (WsMessage.text t)) =
      ⟨[⟨env.envelope_id, handler (parse_envelope env)⟩], true, none, false⟩ := by
  have hne : (parse_envelope env).envelope_type ≠ SocketModeEventType.hello := by
    rw [parse_envelope_type, hty]; intro h; exact absurd h (by decide)
  simp [processMsg, hdec, hne]

/-- Witness for amended C3: the concrete disconnect envelope `E3` gets
exactly one ack. -/
theorem disconnect_gets_one_ack_witness :
    processMsg handlerNone true (Except.ok (WsMessage.text (some jsonC3))) =
      ⟨[⟨"E3", none⟩], true, none, false⟩ :=
  disconnect_gets_one_ack handlerNone (some jsonC3) envC3 rfl rfl

/-- Claim C8: a Close frame received mid-loop (any accumulated state) makes
the loop return `Ok(())`, and a transport read error makes it return the
websocket error; in both exits the writer task has been aborted. -/
theorem close_gives_ok_error_gives_err (handler : SocketModeEvent → Option Json)
    (enqueueOk : Nat → Bool) (rest : List (Except String WsMessage)) (e : String)
    (acks : List SocketModeAck) (calls iters : Nat) :
    (runLoop handler enqueueOk (Except.ok WsMessage.close :: rest)
        acks calls iters).result = Except.ok () ∧
    (runLoop handler enqueueOk (Except.ok WsMessage.close :: rest)
        acks calls iters).writerAborted = true ∧
    (runLoop handler enqueueOk (Except.error e :: rest)
        acks calls iters).result = Except.error ("WebSocket error: " ++ e) ∧
    (runLoop handler enqueueOk (Except.error e :: rest)
        acks calls iters).writerAborted = true :=
  ⟨rfl, rfl, rfl, rfl⟩

/-- If a loop step reports an ack-enqueue failure, that step exits the loop
with `Ok(())` (the `break` at the failed `ack_tx.send`, after which the
loop's tail aborts the writer and returns `Ok(())`). -/
theorem processMsg_ackFailed_exits_ok (handler : SocketModeEvent → Option Json)
    (enqOk : Bool) (msg : Except String WsMessage)
    (h : (processMsg handler enqOk msg).ackFailed = true) :
    (processMsg handler enqOk msg).exit = some (Except.ok ()) := by
  unfold processMsg at h ⊢
  rcases msg with e | m
  case error => simp at h
  · cases m with
    | text t =>
        cases hdec : decodeEnvelope t with
        | none => simp [hdec] at h
        | some env =>
            simp only [hdec] at h ⊢
            by_cases hne : (parse_envelope env).envelope_type = SocketModeEventType.hello
            · simp [hne] at h
            · cases enqOk <;> simp [hne] at h ⊢
    | close => simp at h
    | ping data => simp at h
    | other => simp at h

/-- The receive loop, from any accumulated state: if it ever records an
ack-enqueue failure, its return value is `Ok(())`. -/
theorem runLoop_ackFailed_returns_ok (handler : SocketModeEvent → Option Json)
    (enqueueOk : Nat → Bool) :
    ∀ (msgs : List (Except String WsMessage)) (acks : List SocketModeAck)
      (calls iters : Nat),
      (runLoop handler enqueueOk msgs acks calls iters).ackEnqueueFailed = true →
      (runLoop handler enqueueOk msgs acks calls iters).result = Except.ok () := by
  intro msgs
  induction msgs with
  | nil => intro acks calls iters h; simp [runLoop] at h
  | cons m rest ih =>
      intro acks calls iters h
      rw [runLoop] at h ⊢
      cases hex : (processMsg handler (enqueueOk acks.length) m).exit with
      | some r =>
          simp only [hex] at h ⊢
          have hr := processMsg_ackFailed_exits_ok handler (enqueueOk acks.length) m h
          rw [hex] at hr
          simpa using hr
      | none =>
          simp only [hex] at h ⊢
          exact ih _ _ _ h

/-- Claim C1 counterexample: with the ack channel's receiving end closed
(every enqueue fails), processing the single well-formed `events_api`
envelope `E1` records an ack-enqueue failure, yet `run_connection` returns
`Ok(())` — not `Err` — the `break` lands on the normal-exit path. -/
theorem ack_enqueue_failure_not_err :
    (runConnection handlerNone (fun _ => false)
        [Except.ok (WsMessage.text (some jsonC1))]).ackEnqueueFailed = true ∧
    (runConnection handlerNone (fun _ => false)
        [Except.ok (WsMessage.text (some jsonC1))]).result = Except.ok () :=
  ⟨rfl, rfl⟩

/-- Claim C1 as amended: an ack-enqueue failure is still fatal to the
current connection (the receive loop stops and the writer task is aborted),
but `run_connection` then returns `Ok(())` — the Supervisor sees an orderly
close (and stops reconnecting) rather than an `Err`. -/
theorem ack_enqueue_failure_returns_ok (handler : SocketModeEvent → Option Json)
    (enqueueOk : Nat → Bool) (msgs : List (Except String WsMessage))
    (h : (runConnection handler enqueueOk msgs).ackEnqueueFailed = true) :
    (runConnection handler enqueueOk msgs).result = Except.ok () ∧
    (runConnection handler enqueueOk msgs).writerAborted = true := by
  refine ⟨runLoop_ackFailed_returns_ok handler enqueueOk msgs [] 0 0 h, ?_⟩
  have : ∀ (ms : List (Except String WsMessage)) (acks : List SocketModeAck)
      (calls iters : Nat),
      (runLoop handler enqueueOk ms acks calls iters).writerAborted = true := by
    intro ms
    induction ms with
    | nil => intro acks calls iters; rfl
    | cons m rest ih =>
        intro acks calls iters
        rw [runLoop]
        cases hex : (processMsg handler (enqueueOk acks.length) m).exit with
        | some r => simp [hex]
        | none => simp only [hex]; exact ih _ _ _
  exact this msgs [] 0 0

/-- Witness for amended C1: at the concrete failing run of the
counterexample's shape, the theorem yields `Ok(())` and an aborted writer. -/
theorem ack_enqueue_failure_returns_ok_witness :
    (runConnection handlerNone (fun _ => false)
        [Except.ok (WsMessage.text (some jsonC1))]).result = Except.ok () ∧
    (runConnection handlerNone (fun _ => false)
        [Except.ok (WsMessage.text (some jsonC1))]).writerAborted = true :=
  ack_enqueue_failure_returns_ok handlerNone (fun _ => false)
    [Except.ok (WsMessage.text (some jsonC1))] rfl

/-- Full characterization of the receive loop on a run of Text frames with
an open ack channel: it never exits early, consumes every frame, invokes
the handler once per decodable frame, and enqueues per frame exactly the
acks of `acksOfText`. -/
theorem runLoop_textFrames (handler : SocketModeEvent → Option Json) :
    ∀ (ts : List (Option Json)) (acks : List SocketModeAck) (calls iters : Nat),
      runLoop handler (fun _ => true) (textFrames ts) acks calls iters =
        ⟨Except.ok (), acks ++ ts.flatMap (acksOfText handler),
         calls + (ts.filter (fun t => (decodeEnvelope t).isSome)).length,
         iters + ts.length, true, false⟩ := by
  intro ts
  induction ts with
  | nil =>
      intro acks calls iters
      simp [textFrames, runLoop]
  | cons t rest ih =>
      intro acks calls iters
      rw [textFrames, List.map_cons, runLoop]
      cases hdec : decodeEnvelope t with
      | none =>
          simp only [processMsg, hdec]
          rw [show (textFrames rest) = rest.map (fun t => Except.ok (WsMessage.text t))
                from rfl] at ih
          simp only [List.append_nil, Nat.add_zero]
          rw [ih]
          simp [acksOfText, hdec, List.flatMap_cons, Nat.add_assoc, Nat.add_comm 1]
      | some env =>
          by_cases hne : (parse_envelope env).envelope_type = SocketModeEventType.hello
          · simp only [processMsg, hdec, hne, ne_eq, not_true_eq_false, if_false,
              ite_true, reduceIte]
            rw [show (textFrames rest) = rest.map (fun t => Except.ok (WsMessage.text t))
                  from rfl] at ih
            simp only [List.append_nil]
            rw [ih]
            simp [acksOfText, hdec, hne, List.flatMap_cons, Nat.add_assoc, Nat.add_comm 1]
          · simp only [processMsg, hdec, hne, ne_eq, not_false_eq_true, if_true,
              reduceIte]
            rw [show (textFrames rest) = rest.map (fun t => Except.ok (WsMessage.text t))
                  from rfl] at ih
            rw [ih]
            simp [acksOfText, hdec, hne, List.flatMap_cons, List.append_assoc,
              Nat.add_assoc, Nat.add_comm 1]

/-- Among a run of Text frames, decodable and undecodable frames partition
the sequence: the handler-invocation count is the total minus the malformed
count. -/
theorem decodable_count_complement (ts : List (Option Json)) :
    (ts.filter (fun t => (decodeEnvelope t).isSome)).length =
      ts.length - (ts.filter (fun t => (decodeEnvelope t).isNone)).length := by
  induction ts with
  | nil => rfl
  | cons t rest ih =>
      have hle := List.length_filter_le (fun t => (decodeEnvelope t).isNone) rest
      cases hdec : decodeEnvelope t
      · simp [hdec, ih]
      · simp [hdec, ih]
        omega

/-- Claim C9: on any sequence of `n` Text frames of which `k` are
undecodable (malformed top-level JSON or missing required envelope fields),
with the ack channel open, the receive loop consumes all `n` frames
(malformed ones are dropped without ending the loop), invokes the handler
exactly `n - k` times, enqueues no ack for any malformed frame
(per frame, acks come from `acksOfText`, which is empty on undecodable
input), and ends with `Ok(())` once the stream is exhausted. -/
theorem malformed_frames_dropped (handler : SocketModeEvent → Option Json)
    (ts : List (Option Json)) :
    (runConnection handler (fun _ => true) (textFrames ts)).framesProcessed =
      ts.length ∧
    (runConnection handler (fun _ => true) (textFrames ts)).handlerCalls =
      ts.length - (ts.filter (fun t => (decodeEnvelope t).isNone)).length ∧
    (runConnection handler (fun _ => true) (textFrames ts)).acks =
      ts.flatMap (acksOfText handler) ∧
    (runConnection handler (fun _ => true) (textFrames ts)).result =
      Except.ok () := by
  unfold runConnection
  rw [runLoop_textFrames handler ts [] 0 0]
  refine ⟨by simp, ?_, by simp, rfl⟩
  simpa using decodable_count_complement ts
